import Mathlib

/-!
Verification of the controlled-side core of `robot_remote_control`
(`src/ControlledRobot/ControlledRobot.{hpp,cpp}`), shallowly embedded.

Byte strings (`std::string` blobs on the wire) are `List Nat`; 16-bit
message kinds are `Nat` read/written little-endian.  Protobuf codecs,
the filesystem, and compression are external collaborators and enter as
explicit function parameters (an `Env`), exactly in the places the C++
calls `ParseFromString` / `SerializeToString` / `std::ifstream` /
`Compression`.  Stateful members of `ControlledRobot` become a
`RobotState` record threaded through the operations; transport sends
become returned lists of blobs.
-/

namespace RobotRemoteControl

/-- Wire blobs (`std::string` holding raw bytes). -/
abbrev Bytes := List Nat

/-- The two raw bytes of a 16-bit message kind, little-endian
(`*reinterpret_cast<uint16_t*>(buf.data()) = type` in
`addControlMessageType`; §9 of the spec fixes little-endian). -/
def kindBytes (k : Nat) : Bytes := [k % 256, k / 256 % 256]

/-- Read a `uint16_t` from the head of a blob
(`*reinterpret_cast<uint16_t*>(request.data())`).  When the blob is
shorter than 2 bytes the C++ read is out of bounds; we 0-extend, which
matters for no claim (short payloads still take the same branch). -/
def readU16 (b : Bytes) : Nat := b.headD 0 % 256 + 256 * ((b.drop 1).headD 0 % 256)

/-- Modelled from the spec: `MessageTypes.hpp` is not under `src/`; the
spec gives `NO_DATA = 0` (treated as the same sentinel as the newer
variant's `NO_CONTROL_DATA`, spec §9.3), `TWIST_COMMAND = 2` (scenario
S1) and `TELEMETRY_REQUEST = 0x0C` (scenario S2); the remaining control
kinds only need to be distinct 16-bit values. -/
def NO_CONTROL_DATA : Nat := 0

def TARGET_POSE_COMMAND : Nat := 1
def TWIST_COMMAND : Nat := 2
def GOTO_COMMAND : Nat := 3
def JOINTS_COMMAND : Nat := 4
def SIMPLE_ACTIONS_COMMAND : Nat := 5
def COMPLEX_ACTION_COMMAND : Nat := 6
def ROBOT_TRAJECTORY_COMMAND : Nat := 7
def HEARTBEAT : Nat := 8
def MAP_REQUEST : Nat := 9
def LOG_LEVEL_SELECT : Nat := 10
def PERMISSION : Nat := 11
def TELEMETRY_REQUEST : Nat := 12
def FILE_REQUEST : Nat := 13

/-- Modelled from the spec: telemetry kinds (`MessageTypes.hpp` not in
`src/`); only distinctness and 16-bit range matter. -/
def CURRENT_POSE : Nat := 20

def LOG_MESSAGE : Nat := 21
def PERMISSION_REQUEST : Nat := 22
def CURRENT_TWIST : Nat := 23

/-- Log levels: `NONE(0) < FATAL < ERROR < WARN < INFO < DEBUG`, and
`CUSTOM = 20` (spec §6; `MessageTypes.hpp` not in `src/`). -/
def CUSTOM : Nat := 20

/-- `serializeControlMessageType`: a buffer holding just the 2-byte kind. -/
def serializeControlMessageType (ty : Nat) : Bytes := kindBytes ty

/-- Universe of decoded command payload values standing for the protobuf
message objects held in the typed command buffers.  `heartbeat` carries
the two float fields of `HeartBeat` (`heartbeatduration`,
`heartbeatlatency`), modelled over `ℚ`; every other message object is
kept opaque. -/
inductive CmdVal where
  | heartbeat (duration latency : ℚ)
  | blob (tag : Nat) (payload : Bytes)
deriving DecidableEq

instance : Inhabited CmdVal := ⟨.blob 0 []⟩

/-- `heartbeatValues.heartbeatduration()` on the decoded slot value
(protobuf float fields default to 0 on any other message object). -/
def CmdVal.hbDuration : CmdVal → ℚ
  | .heartbeat d _ => d
  | .blob _ _ => 0

/-- `ControlledRobot::CommandBuffer<COMMAND>` (hpp:461-501): a
single-latest slot holding one decoded message plus the `isnew` fresh
flag.  The per-slot callback list only wraps opaque side effects and is
not carried in the state. -/
structure CommandBuffer (C : Type) where
  command : C
  isnew : Bool
deriving DecidableEq

/-- `CommandBuffer()` : `isnew(false)`, message default-constructed. -/
def CommandBuffer.init (C : Type) [Inhabited C] : CommandBuffer C :=
  ⟨default, false⟩

/-- `bool read(COMMAND *target)`: unconditionally copies the stored
message into the out-parameter, clears `isnew`, and returns the old
`isnew`. -/
def CommandBuffer.read {C : Type} (buf : CommandBuffer C) :
    Bool × C × CommandBuffer C :=
  (buf.isnew, buf.command, { buf with isnew := false })

/-- `void write(const COMMAND &src)`: stores the value and sets `isnew`. -/
def CommandBuffer.writeVal {C : Type} (src : C) (_buf : CommandBuffer C) :
    CommandBuffer C :=
  ⟨src, true⟩

/-- `bool write(const std::string &serializedMessage)`: `ParseFromString`
into the stored message; on failure `isnew.store(false)` and return
false, on success `isnew.store(true)`, notify, return true.  On a failed
parse the C++ message object is left in an unspecified partial state; no
claim inspects the value after a failed parse, so the model keeps the
previous value. -/
def CommandBuffer.writeSerialized {C : Type} (dec : Bytes → Option C)
    (serializedMessage : Bytes) (buf : CommandBuffer C) :
    Bool × CommandBuffer C :=
  match dec serializedMessage with
  | none => (false, { buf with isnew := false })
  | some v => (true, ⟨v, true⟩)

/-- `bool read(std::string *receivedMessage)`: serializes the stored
message into the out-parameter, clears `isnew`, returns the old flag. -/
def CommandBuffer.readSerialized {C : Type} (enc : C → Bytes)
    (buf : CommandBuffer C) : Bool × Bytes × CommandBuffer C :=
  (buf.isnew, enc buf.command, { buf with isnew := false })

/-- A registered command slot as seen through `CommandBufferBase`.
`latest` is `CommandBuffer<T>`; `ring` models `CommandRingBuffer<T>`
(modelled from the spec, §3 "Ring: bounded FIFO … `write` appends,
dropping the oldest on overflow" — the class body is not under `src/`). -/
inductive Slot where
  | latest (buf : CommandBuffer CmdVal)
  | ring (capacity : Nat) (items : List CmdVal)
deriving DecidableEq

/-- `CommandBufferBase::write(const std::string&)` dispatched over the
slot variant. -/
def Slot.writeSerialized (dec : Bytes → Option CmdVal)
    (serializedMessage : Bytes) : Slot → Bool × Slot
  | .latest buf =>
      let r := buf.writeSerialized dec serializedMessage
      (r.1, .latest r.2)
  | .ring cap items =>
      match dec serializedMessage with
      | none => (false, .ring cap items)
      | some v =>
          let appended := items ++ [v]
          (true, .ring cap (appended.drop (appended.length - cap)))

/-- `std::promise<bool>` in the pending-permission table: whether a value
was set, and whether `get_future` was already called. -/
structure PromiseState where
  value : Option Bool
  futureRetrieved : Bool
deriving DecidableEq

instance : Inhabited PromiseState := ⟨⟨none, false⟩⟩

/-- A `File` protobuf message as the file responder fills it. -/
structure FileMsg where
  path : String
  data : Bytes
deriving DecidableEq

/-- A `Folder` protobuf message: `identifier`, repeated `file`,
`compressed`.  Default-constructed: empty identifier, no files, flag
unset. -/
structure Folder where
  identifier : String
  files : List FileMsg
  compressed : Bool
deriving DecidableEq

/-- One entry of the `FileDefinition files` member: the parallel arrays
`files.file(i).identifier()/path()` and `files.isfolder(i)`. -/
structure FileDef where
  identifier : String
  path : String
  isFolder : Bool
deriving DecidableEq

instance : Inhabited FileDef := ⟨⟨"", "", false⟩⟩

/-- External collaborators: the per-type protobuf codecs, the
compressor, and the filesystem.  The engine treats payloads as opaque
bytes except where it decodes them (spec §6). -/
structure Env where
  /-- `Permission::ParseFromString` → (`requestuid`, `granted`);
  `none` is a parse failure (the C++ ignores the result, leaving the
  default-constructed message: uid `""`, granted `false`). -/
  decPermission : Bytes → Option (String × Bool)
  /-- `FileRequest::ParseFromString` → (`identifier`, `compressed`). -/
  decFileRequest : Bytes → Option (String × Bool)
  /-- `Folder::SerializeToString`. -/
  encFolder : Folder → Bytes
  /-- per-kind `ParseFromString` of the registered command types. -/
  decCmd : Nat → Bytes → Option CmdVal
  /-- whether the build found zlib (`ZLIB_FOUND`). -/
  zlibFound : Bool
  /-- `Compression::compressString`. -/
  compress : Bytes → Bytes
  /-- `std::ifstream` read of a regular file; `none` when unreadable. -/
  readFile : String → Option Bytes
  /-- `recursive_directory_iterator`: the entry paths, or the
  `filesystem_error` text. -/
  folderEntries : String → Except String (List String)

/-- The mutable members of `ControlledRobot` that the verified
operations touch.  The two transports appear as: presence flag for the
telemetry transport (checked by `sendTelemetry`), and returned send
lists; the inbound command-transport queue is passed to `update`
explicitly. -/
structure RobotState where
  /-- `telemetryTransport.get()` non-null. -/
  hasTelemetryTransport : Bool
  /-- `heartbeatAllowedLatency`. -/
  heartbeatAllowedLatency : ℚ
  /-- `heartbeatExpiredCallback != nullptr`. -/
  hasHeartbeatCallback : Bool
  /-- `std::atomic<bool> connected`. -/
  connected : Bool
  /-- `commandbuffers` (`std::map<uint32_t, CommandBufferBase*>`), the
  single store behind the named buffer members they point to.  Newest
  binding first; lookup takes the first hit. -/
  commandbuffers : List (Nat × Slot)
  /-- Modelled from the spec: `TelemetryBuffer buffers` (class not under
  `src/`): per-kind latest serialized payload, as stored by the
  `RingBufferAccess::pushData` in `sendTelemetry` ("a slot stores the
  most recent serialized payload", spec §3). -/
  telemetryStore : List (Nat × Bytes)
  /-- Modelled from the spec: `SimpleBuffer<std::string> mapBuffer`
  (class not under `src/`): map-id-indexed latest map payloads with the
  bounds check of the `MAP_REQUEST` branch. -/
  mapBuffer : List Bytes
  /-- `uint32_t logLevel`, initialised `CUSTOM - 1`. -/
  logLevel : Nat
  /-- `pendingPermissionRequests` (`std::map<std::string,
  std::promise<bool>>`).  Newest binding first. -/
  pendingPermissions : List (String × PromiseState)
  /-- `FileDefinition files` flattened to its entries. -/
  files : List FileDef
deriving DecidableEq

/-- first-hit association lookup (`std::map::find`). -/
def alistFind {A : Type} [DecidableEq A] {B : Type}
    (k : A) : List (A × B) → Option B
  | [] => none
  | (k', v) :: rest => if k = k' then some v else alistFind k rest

/-- association update: bind `k` to `v`, shadowing any older binding. -/
def alistPut {A : Type} {B : Type} (k : A) (v : B)
    (l : List (A × B)) : List (A × B) :=
  (k, v) :: l

def RobotState.getSlot (s : RobotState) (k : Nat) : Option Slot :=
  alistFind k s.commandbuffers

def RobotState.setSlot (s : RobotState) (k : Nat) (slot : Slot) :
    RobotState :=
  { s with commandbuffers := alistPut k slot s.commandbuffers }

/-- the constructor's `registerCommandType` calls
(ControlledRobot.cpp:21-32); ring buffers get `buffersize`. -/
def initialCommandBuffers (buffersize : Nat) : List (Nat × Slot) :=
  [ (TARGET_POSE_COMMAND, .latest (CommandBuffer.init CmdVal)),
    (TWIST_COMMAND, .latest (CommandBuffer.init CmdVal)),
    (JOINTS_COMMAND, .latest (CommandBuffer.init CmdVal)),
    (SIMPLE_ACTIONS_COMMAND, .ring buffersize []),
    (COMPLEX_ACTION_COMMAND, .ring buffersize []),
    (GOTO_COMMAND, .latest (CommandBuffer.init CmdVal)),
    (HEARTBEAT, .latest (CommandBuffer.init CmdVal)),
    (PERMISSION, .latest (CommandBuffer.init CmdVal)),
    (ROBOT_TRAJECTORY_COMMAND, .latest (CommandBuffer.init CmdVal)) ]

/-- the `ControlledRobot` constructor: `heartbeatAllowedLatency(0.1)`,
`connected(false)`, `logLevel(CUSTOM-1)`, command types registered. -/
def initialState (hasTelemetryTransport : Bool) (buffersize : Nat) :
    RobotState :=
  { hasTelemetryTransport := hasTelemetryTransport
    heartbeatAllowedLatency := 1 / 10
    hasHeartbeatCallback := false
    connected := false
    commandbuffers := initialCommandBuffers buffersize
    telemetryStore := []
    mapBuffer := []
    logLevel := CUSTOM - 1
    pendingPermissions := []
    files := [] }

/-- `setupHeartbeatCallback(allowedLatency, callback)` (hpp:30-33). -/
def setupHeartbeatCallback (allowedLatency : ℚ) (s : RobotState) :
    RobotState :=
  { s with heartbeatAllowedLatency := allowedLatency,
           hasHeartbeatCallback := true }

/-- `isConnected()` (hpp:35-37). -/
def isConnected (s : RobotState) : Bool := s.connected

/-!  ### Heartbeat timer

`UpdateThread/Timer.hpp` is not under `src/`; the timer is modelled from
the spec (§4.6, §8.7: start for a duration, monotonic clock, expiry
observed once and the callback invoked "exactly once per expiry event",
elapsed time reported from timer start).  Time is an explicit `ℚ`
argument `now` on every operation. -/

/-- Modelled from the spec: `Timer` — a one-shot monotonic timer. -/
structure Timer where
  running : Bool
  startTime : ℚ
  duration : ℚ
deriving DecidableEq

/-- Modelled from the spec: `Timer::start(duration)` at time `now`. -/
def Timer.start (now d : ℚ) : Timer := ⟨true, now, d⟩

/-- Modelled from the spec: `Timer::isExpired()` at time `now` — true
when the started duration has elapsed, and only once per started timer
("exactly once per expiry event"). -/
def Timer.isExpired (t : Timer) (now : ℚ) : Bool × Timer :=
  if t.running ∧ t.duration < now - t.startTime then
    (true, { t with running := false })
  else (false, t)

/-- Modelled from the spec: `Timer::getElapsedTime()` — elapsed time
from timer start (§4.6). -/
def Timer.getElapsedTime (t : Timer) (now : ℚ) : ℚ := now - t.startTime

/-!  ### Telemetry sending and the telemetry buffer -/

/-- Modelled from the spec: `TelemetryBuffer::peekSerialized(type)` (the
class is not under `src/`): "returns the tagged serialization stored in
the slot" (§4.3), the reply being an "empty buffer if never pushed"
(§4.5). -/
def peekSerialized (s : RobotState) (ty : Nat) : Bytes :=
  match alistFind ty s.telemetryStore with
  | some b => kindBytes ty ++ b
  | none => []

/-- `sendTelemetry<CLASS>(protodata, type, requestOnly)` (hpp:155-173),
generic over the protobuf class `T` via its serializer `enc`.  Returns
(return value, state, blobs sent on the telemetry transport).  The
transport is modelled as accepting the blob whole (`send` returns
`buf.size()`); only kinds registered by the constructor are pushed in
the source, so the store accepts every kind. -/
def sendTelemetry {T : Type} (enc : T → Bytes) (protodata : T)
    (ty : Nat) (requestOnly : Bool) (s : RobotState) :
    Int × RobotState × List Bytes :=
  if s.hasTelemetryTransport then
    let buf : Bytes := kindBytes ty ++ enc protodata
    let s' := { s with
      telemetryStore := alistPut ty (enc protodata) s.telemetryStore }
    if !requestOnly then
      ((buf.length : Int) - 2, s', [buf])
    else
      ((buf.length : Int), s', [])
  else
    (0, s, [])

/-- `setLogMessage(lvl, msg)` (ControlledRobot.cpp:233-241): emit a
`LOG_MESSAGE` telemetry iff `lvl <= logLevel || lvl >= CUSTOM`, else
return `-1`.  `enc` is `LogMessage::AppendToString` on the message built
from `(lvl, message)`. -/
def setLogMessage (enc : Nat × String → Bytes) (lvl : Nat)
    (message : String) (s : RobotState) : Int × RobotState × List Bytes :=
  if lvl ≤ s.logLevel ∨ CUSTOM ≤ lvl then
    sendTelemetry enc (lvl, message) LOG_MESSAGE false s
  else
    (-1, s, [])

/-- `requestPermission(permissionrequest)` (hpp:252-262).  `uid` is
`permissionrequest.requestuid()`, `encPR` serializes the request for
`sendTelemetry(.., PERMISSION_REQUEST)`.  `pendingPermissionRequests[uid]`
default-constructs a promise on first use; `promise.get_future().share()`
throws `future_error` if the future was already retrieved, the catch
block logs, and control falls off the end of the non-void function:
that path returns no future (undefined behavior), modelled as `none`. -/
def requestPermission (encPR : String → Bytes) (uid : String)
    (s : RobotState) : Option (RobotState × List Bytes) :=
  let p := (alistFind uid s.pendingPermissions).getD default
  let s1 := { s with
    pendingPermissions := alistPut uid p s.pendingPermissions }
  let r := sendTelemetry encPR uid PERMISSION_REQUEST false s1
  let s2 := r.2.1
  if p.futureRetrieved then
    none
  else
    let retrieved : PromiseState := { p with futureRetrieved := true }
    some ({ s2 with pendingPermissions :=
              alistPut uid retrieved s2.pendingPermissions }, r.2.2)

/-- The value a shared future obtained from `requestPermission(uid)`
observes: the fulfilment state of the promise stored under `uid`. -/
def futureValue (s : RobotState) (uid : String) : Option Bool :=
  (alistFind uid s.pendingPermissions).bind (·.value)

/-!  ### The file responder -/

/-- `loadFile(file, path, compressed)` (ControlledRobot.cpp:280-302):
`path` is always set; the data is the (optionally compressed) file
content, or unset when the file cannot be read. -/
def loadFile (env : Env) (path : String) (compressed : Bool) : FileMsg :=
  match env.readFile path with
  | some content =>
      ⟨path, if env.zlibFound ∧ compressed then env.compress content
             else content⟩
  | none => ⟨path, []⟩

/-- `loadFolder(folder, path, compressed)` (ControlledRobot.cpp:304-318):
iterate the directory recursively loading each entry and set the
`compressed` flag; a `filesystem_error` puts its text into the folder's
`identifier` (the iterator is modelled as yielding the full listing or
failing, so a failed iteration contributes no entries). -/
def loadFolder (env : Env) (path : String) (compressed : Bool) : Folder :=
  match env.folderEntries path with
  | .ok entries =>
      ⟨"", entries.map (fun p => loadFile env p compressed), compressed⟩
  | .error e => ⟨e, [], false⟩

/-!  ### The request evaluator -/

/-- the linear scan of `FILE_REQUEST`
(`for i ...: if (files.file(i).identifier() == request.identifier())`,
ControlledRobot.cpp:160-165). -/
def findFileIndex (identifier : String) : List FileDef → Option Nat
  | [] => none
  | fd :: rest =>
      if fd.identifier = identifier then some 0
      else (findFileIndex identifier rest).map (· + 1)

/-- What one `evaluateRequest` call produced: the returned
`ControlMessageType`, the blobs sent on the command transport, the
global `commandCallbacks` notifications (`notifyCommandCallbacks`), and
the updated state. -/
structure EvalResult where
  ret : Nat
  replies : List Bytes
  callbackNotified : List Nat
  state : RobotState
deriving DecidableEq

/-- `evaluateRequest(request)` (ControlledRobot/ControlledRobot.cpp:
111-207).  `none` models an exception escaping: for `request.size() < 2`
the construction `std::string(request.data()+2, request.size()-2)`
underflows `size_t` and throws `length_error` — there is no
short-message check in the source. -/
def evaluateRequest (env : Env) (s : RobotState) (request : Bytes) :
    Option EvalResult :=
  if request.length < 2 then none
  else
    let msgtype := readU16 request
    let serializedMessage := request.drop 2
    if msgtype = TELEMETRY_REQUEST then
      let requestedtype := readU16 serializedMessage
      let reply := peekSerialized s requestedtype
      some ⟨TELEMETRY_REQUEST, [reply], [], s⟩
    else if msgtype = MAP_REQUEST then
      let requestedMap := readU16 serializedMessage
      -- `if (*requestedMap < lockedAccess.get().size()) peekData(...)`;
      -- the local `map` stays empty otherwise
      let map := s.mapBuffer.getD requestedMap []
      some ⟨MAP_REQUEST, [map], [], s⟩
    else if msgtype = LOG_LEVEL_SELECT then
      some ⟨LOG_LEVEL_SELECT, [serializeControlMessageType LOG_LEVEL_SELECT],
            [], { s with logLevel := readU16 serializedMessage }⟩
    else if msgtype = PERMISSION then
      -- the ParseFromString result is ignored; a failed parse leaves the
      -- default-constructed message (uid "", granted false)
      let perm := (env.decPermission serializedMessage).getD ("", false)
      let p := (alistFind perm.1 s.pendingPermissions).getD default
      -- promise.set_value throws future_error when already satisfied;
      -- caught and logged, the promise keeps its first value
      let p' := if p.value.isSome then p else { p with value := some perm.2 }
      let s' := { s with
        pendingPermissions := alistPut perm.1 p' s.pendingPermissions }
      some ⟨PERMISSION, [serializeControlMessageType PERMISSION], [], s'⟩
    else if msgtype = FILE_REQUEST then
      let req := (env.decFileRequest serializedMessage).getD ("", false)
      let index := findFileIndex req.1 s.files
      -- #ifndef ZLIB_FOUND: request.set_compressed(false)
      let compressed := if env.zlibFound then req.2 else false
      let folder :=
        match index with
        | some i =>
            let filedef := s.files.getD i default
            if filedef.isFolder then
              loadFolder env filedef.path compressed
            else
              { identifier := "",
                files := [loadFile env filedef.path compressed],
                compressed := compressed }
        | none =>
            { identifier := "file/folder :" ++ req.1 ++ " undefined",
              files := [], compressed := false }
      some ⟨FILE_REQUEST, [env.encFolder folder], [], s⟩
    else
      match s.getSlot msgtype with
      | some cmdbuffer =>
          match cmdbuffer.writeSerialized (env.decCmd msgtype)
              serializedMessage with
          | (false, cmdbuffer') =>
              some ⟨NO_CONTROL_DATA,
                    [serializeControlMessageType NO_CONTROL_DATA], [],
                    s.setSlot msgtype cmdbuffer'⟩
          | (true, cmdbuffer') =>
              some ⟨msgtype, [serializeControlMessageType msgtype],
                    [msgtype], s.setSlot msgtype cmdbuffer'⟩
      | none =>
          -- `commandbuffers[msgtype]` inserts a null pointer for an
          -- unknown kind; the null branch replies NO_DATA and returns
          -- the (unknown) kind
          some ⟨msgtype, [serializeControlMessageType NO_CONTROL_DATA],
                [], s⟩

/-!  ### `update`: the drain loop and the heartbeat supervision -/

/-- Result of `update`: the state, the command-transport replies in
emission order, the heartbeat-expiry callback invocations (their
`elapsedTime` arguments), the global command-callback notifications,
and the inbound messages left unconsumed on the transport. -/
structure UpdateResult where
  state : RobotState
  replies : List Bytes
  expiredCalls : List ℚ
  callbackNotified : List Nat
  remaining : List Bytes
deriving DecidableEq

/-- The `while (receiveRequest() != NO_CONTROL_DATA) {connected.store(true);}`
loop of `update` (ControlledRobot/ControlledRobot.cpp:71), over the
queue of inbound command-transport messages.  A `receiveRequest` with an
empty queue returns `NO_CONTROL_DATA` (`receive` reports no data,
cpp:97-109) and ends the loop; an exception out of `evaluateRequest`
escapes (`none`). -/
def drainGo (env : Env) :
    List Bytes → RobotState →
    Option (RobotState × List Bytes × List Nat × List Bytes)
  | [], s => some (s, [], [], [])
  | msg :: rest, s =>
      match evaluateRequest env s msg with
      | none => none
      | some r =>
          if r.ret = NO_CONTROL_DATA then
            -- the loop condition fails: `connected` not stored for this
            -- message, the rest of the queue stays on the transport
            some (r.state, r.replies, r.callbackNotified, rest)
          else
            match drainGo env rest { r.state with connected := true } with
            | none => none
            | some (s', reps, cbs, rem) =>
                some (s', r.replies ++ reps, r.callbackNotified ++ cbs, rem)

/-- The heartbeat block of `update`
(ControlledRobot/ControlledRobot.cpp:76-87): read the heartbeat command
slot (`heartbeatCommand.read(&heartbeatValues)`), on fresh parameters
store `connected = true` and restart the timer for
`heartbeatduration + heartbeatAllowedLatency`, then check the timer for
expiry, on expiry storing `connected = false` and invoking the expiry
callback (when registered) with `getElapsedTime()`.  Returns (state,
callback invocations, timer); `none` only when the `HEARTBEAT` kind is
not bound to a single-latest buffer, which the constructor makes
impossible (`heartbeatCommand` is a member `CommandBuffer<HeartBeat>`). -/
def heartbeatPhase (now : ℚ) (timer : Timer) (s : RobotState) :
    Option (RobotState × List ℚ × Timer) :=
  match s.getSlot HEARTBEAT with
  | some (.latest hb) =>
      let read := hb.read
      let s2 := s.setSlot HEARTBEAT (.latest read.2.2)
      let heartbeatValues := read.2.1
      let st :=
        if read.1 then
          ({ s2 with connected := true },
           Timer.start now
             (heartbeatValues.hbDuration + s2.heartbeatAllowedLatency))
        else (s2, timer)
      -- `if (heartbeatTimer.isExpired())`
      let expired := st.2.isExpired now
      if expired.1 then
        some ({ st.1 with connected := false },
              (if st.1.hasHeartbeatCallback then
                 [expired.2.getElapsedTime now]
               else []),
              expired.2)
      else
        some (st.1, [], expired.2)
  | _ => none

/-- `update()` (ControlledRobot/ControlledRobot.cpp:70-88) at time
`now`, with `inbound` the messages queued on the command transport and
`timer` the `heartbeatTimer` member (kept outside `RobotState` so that
state equalities stay decidable; it is threaded explicitly): the drain
loop followed by the heartbeat block. -/
def update (env : Env) (now : ℚ) (inbound : List Bytes)
    (timer : Timer) (s : RobotState) : Option (UpdateResult × Timer) :=
  match drainGo env inbound s with
  | none => none
  | some (s1, reps, cbs, rem) =>
      match heartbeatPhase now timer s1 with
      | none => none
      | some (s', calls, t') => some (⟨s', reps, calls, cbs, rem⟩, t')

/-!  ### Command getters -/

/-- the shared body of the public command getters (`getTargetPoseCommand`,
`getTwistCommand`, … hpp:77-135): `slot.read(&command)` on the
registered single-latest slot of kind `k`, returning (old fresh flag,
the value copied into the out-parameter, state).  `none` only when the
kind is not bound to a single-latest buffer (impossible for the kinds
the getters use). -/
def readCommandSlot (k : Nat) (s : RobotState) :
    Option (Bool × CmdVal × RobotState) :=
  match s.getSlot k with
  | some (.latest buf) =>
      let r := buf.read
      some (r.1, r.2.1, s.setSlot k (.latest r.2.2))
  | _ => none

/-- `getTargetPoseCommand(Pose *command)` (hpp:77-79). -/
def getTargetPoseCommand : RobotState → Option (Bool × CmdVal × RobotState) :=
  readCommandSlot TARGET_POSE_COMMAND

/-- `getTwistCommand(Twist *command)` (hpp:87-89). -/
def getTwistCommand : RobotState → Option (Bool × CmdVal × RobotState) :=
  readCommandSlot TWIST_COMMAND

/-- `getGoToCommand(GoTo *command)` (hpp:97-99). -/
def getGoToCommand : RobotState → Option (Bool × CmdVal × RobotState) :=
  readCommandSlot GOTO_COMMAND

/-- `getJointsCommand(JointCommand *command)` (hpp:108-110). -/
def getJointsCommand : RobotState → Option (Bool × CmdVal × RobotState) :=
  readCommandSlot JOINTS_COMMAND

/-- `getRobotTrajectoryCommand(Poses *command)` (hpp:133-135). -/
def getRobotTrajectoryCommand : RobotState → Option (Bool × CmdVal × RobotState) :=
  readCommandSlot ROBOT_TRAJECTORY_COMMAND

/-- the fresh flag of a registered single-latest slot. -/
def freshOf (s : RobotState) (k : Nat) : Option Bool :=
  match s.getSlot k with
  | some (.latest buf) => some buf.isnew
  | _ => none

/-!  ### Concrete instances used to exercise the model

A small concrete instantiation of the external collaborators: byte-level
codecs standing in for the protobuf ones (any functions of the right
signatures model them), no zlib, a failing filesystem. -/

def envDefault : Env :=
  { decPermission := fun b =>
      match b with
      | [1] => some ("u1", true)
      | [2] => some ("u1", false)
      | _ => none
    decFileRequest := fun b =>
      match b with
      | [110] => some ("nope", true)
      | _ => none
    encFolder := fun f =>
      (f.identifier.toList.map Char.toNat) ++
        [f.files.length, if f.compressed then 1 else 0]
    decCmd := fun k b =>
      match b with
      | [] => none
      | 255 :: _ => none
      | _ => some (.blob k b)
    zlibFound := false
    compress := id
    readFile := fun _ => none
    folderEntries := fun _ => .error "fs error" }

/-- a state whose `TWIST_COMMAND` slot holds an unread (fresh) command. -/
def stateWithFreshTwist : RobotState :=
  (initialState true 4).setSlot TWIST_COMMAND
    (.latest ⟨.blob TWIST_COMMAND [7], true⟩)

/-- the Folder the file responder builds on a `FILE_REQUEST` miss for
identifier `"nope"` (spec scenario S4). -/
def folderMiss : Folder :=
  ⟨"file/folder :nope undefined", [], false⟩

/-- a state whose heartbeat slot holds a fresh `HeartBeat(duration=2)`. -/
def stateFreshHeartbeat : RobotState :=
  (initialState true 4).setSlot HEARTBEAT (.latest ⟨.heartbeat 2 0, true⟩)

/-- a connected state with an expiry callback registered
(`setupHeartbeatCallback(0.1, cb)`). -/
def stateWithCallback : RobotState :=
  { setupHeartbeatCallback (1 / 10) (initialState true 4) with
      connected := true }

/-- what `evaluateRequest` produces on a twist command whose payload
fails to decode under `envDefault`: `NO_DATA` reply, `NO_DATA` return,
fresh flag cleared. -/
def evalFailTwist : EvalResult :=
  ⟨NO_CONTROL_DATA, [serializeControlMessageType NO_CONTROL_DATA], [],
   (initialState true 4).setSlot TWIST_COMMAND
     (.latest ⟨default, false⟩)⟩

/-- what `evaluateRequest` produces on a twist command with payload
`[9]` under `envDefault`: ACK, value stored fresh. -/
def evalOkTwist : EvalResult :=
  ⟨TWIST_COMMAND, [serializeControlMessageType TWIST_COMMAND],
   [TWIST_COMMAND],
   (initialState true 4).setSlot TWIST_COMMAND
     (.latest ⟨.blob TWIST_COMMAND [9], true⟩)⟩

/-!  ## Helper lemmas -/

theorem readU16_kindBytes_append (k : Nat) (p : Bytes) :
    readU16 (kindBytes k ++ p) = k % 65536 := by
  show k % 256 % 256 + 256 * ((k / 256 % 256) % 256) = k % 65536
  omega

theorem readU16_kindBytes (k : Nat) : readU16 (kindBytes k) = k % 65536 := by
  show k % 256 % 256 + 256 * ((k / 256 % 256) % 256) = k % 65536
  omega

theorem drop_two_kindBytes_append (k : Nat) (p : Bytes) :
    (kindBytes k ++ p).drop 2 = p := rfl

theorem length_kindBytes_append (k : Nat) (p : Bytes) :
    (kindBytes k ++ p).length = p.length + 2 := by
  simp [kindBytes]

theorem alistFind_put_same {A : Type} [DecidableEq A] {B : Type}
    (k : A) (v : B) (l : List (A × B)) :
    alistFind k (alistPut k v l) = some v := by
  simp [alistFind, alistPut]

theorem getSlot_setSlot_same (s : RobotState) (k : Nat) (slot : Slot) :
    (s.setSlot k slot).getSlot k = some slot := by
  simp [RobotState.getSlot, RobotState.setSlot, alistFind_put_same]

theorem evaluateRequest_connected (env : Env) (s : RobotState)
    (request : Bytes) (r : EvalResult)
    (h : evaluateRequest env s request = some r) :
    r.state.connected = s.connected := by
  unfold evaluateRequest at h
  by_cases h1 : request.length < 2
  · simp [h1] at h
  · simp only [if_neg h1] at h
    by_cases h2 : readU16 request = TELEMETRY_REQUEST
    · simp only [if_pos h2] at h; cases h; rfl
    · simp only [if_neg h2] at h
      by_cases h3 : readU16 request = MAP_REQUEST
      · simp only [if_pos h3] at h; cases h; rfl
      · simp only [if_neg h3] at h
        by_cases h4 : readU16 request = LOG_LEVEL_SELECT
        · simp only [if_pos h4] at h; cases h; rfl
        · simp only [if_neg h4] at h
          by_cases h5 : readU16 request = PERMISSION
          · simp only [if_pos h5] at h; cases h; rfl
          · simp only [if_neg h5] at h
            by_cases h6 : readU16 request = FILE_REQUEST
            · simp only [if_pos h6] at h; cases h; rfl
            · simp only [if_neg h6] at h
              cases hs : s.getSlot (readU16 request) with
              | none => simp only [hs] at h; cases h; rfl
              | some cb =>
                  simp only [hs] at h
                  rcases hw : Slot.writeSerialized
                      (env.decCmd (readU16 request))
                      (List.drop 2 request) cb with ⟨ok, cb'⟩
                  simp only [hw] at h
                  cases ok <;> (cases h; rfl)

theorem findFileIndex_none (identifier : String) :
    ∀ l : List FileDef, (∀ fd ∈ l, fd.identifier ≠ identifier) →
      findFileIndex identifier l = none := by
  intro l
  induction l with
  | nil => intro _; rfl
  | cons a t ih =>
      intro h
      have ha := h a (by simp)
      have ht := ih (fun x hx => h x (by simp [hx]))
      simp [findFileIndex, ha, ht]

/-!  ## Claims -/

/-- C1 (corrected).  The source has no short-message check: for a blob
shorter than 2 bytes, `std::string serializedMessage(request.data()+2,
request.size()-2)` underflows and throws, so no reply is emitted and
`NO_DATA` is not returned — refuting the claim's "for every inbound blob
shorter than 2 bytes, a NO_DATA-tagged reply is emitted and
evaluateRequest returns NO_DATA" at the concrete empty blob. -/
theorem C1_counterexample :
    evaluateRequest envDefault (initialState true 4) [] = none := rfl

/-- C1 (amended): for every inbound blob of at least 2 bytes,
`evaluateRequest` emits exactly one reply on the command transport
(synchronously, so before the next message is processed), whatever the
kind and however malformed the payload; a blob shorter than 2 bytes
raises an exception, emitting no reply and returning nothing. -/
theorem C1_exactly_one_reply (env : Env) (s : RobotState)
    (request : Bytes) :
    (2 ≤ request.length →
      ∃ r, evaluateRequest env s request = some r ∧
        r.replies.length = 1) ∧
    (request.length < 2 → evaluateRequest env s request = none) := by
  constructor
  · intro h
    unfold evaluateRequest
    rw [if_neg (by omega)]
    by_cases h2 : readU16 request = TELEMETRY_REQUEST
    · simp only [if_pos h2]; exact ⟨_, rfl, rfl⟩
    · simp only [if_neg h2]
      by_cases h3 : readU16 request = MAP_REQUEST
      · simp only [if_pos h3]; exact ⟨_, rfl, rfl⟩
      · simp only [if_neg h3]
        by_cases h4 : readU16 request = LOG_LEVEL_SELECT
        · simp only [if_pos h4]; exact ⟨_, rfl, rfl⟩
        · simp only [if_neg h4]
          by_cases h5 : readU16 request = PERMISSION
          · simp only [if_pos h5]; exact ⟨_, rfl, rfl⟩
          · simp only [if_neg h5]
            by_cases h6 : readU16 request = FILE_REQUEST
            · simp only [if_pos h6]; exact ⟨_, rfl, rfl⟩
            · simp only [if_neg h6]
              cases hs : RobotState.getSlot s (readU16 request) with
              | none => simp only [hs]; exact ⟨_, rfl, rfl⟩
              | some cb =>
                  simp only [hs]
                  rcases hw : Slot.writeSerialized
                      (env.decCmd (readU16 request))
                      (List.drop 2 request) cb with ⟨ok, cb'⟩
                  cases ok
                  · exact ⟨_, rfl, rfl⟩
                  · exact ⟨_, rfl, rfl⟩
  · intro h
    unfold evaluateRequest
    rw [if_pos h]

/-- C1 witness: the amended theorem applied at a well-formed twist
command and at the empty blob. -/
theorem C1_witness :
    (∃ r, evaluateRequest envDefault (initialState true 4)
        (kindBytes TWIST_COMMAND ++ [9]) = some r ∧
        r.replies.length = 1) ∧
    evaluateRequest envDefault (initialState true 4) [] = none :=
  ⟨(C1_exactly_one_reply envDefault (initialState true 4)
      (kindBytes TWIST_COMMAND ++ [9])).1 (by decide),
   (C1_exactly_one_reply envDefault (initialState true 4) []).2
      (by decide)⟩

/-- C2 (confirmed): an inbound command of a registered single-latest
kind `k` whose payload decodes to `v` is a successful write into the
slot: the evaluator ACKs with `k`, the slot then holds `v` with the
fresh flag set, the next read on the slot returns true delivering `v`,
and the read after that (no intervening write) returns false. -/
theorem C2_slot_write_then_read (env : Env) (s : RobotState) (k : Nat)
    (payload : Bytes) (buf : CommandBuffer CmdVal) (v : CmdVal)
    (hk : k < 65536)
    (hspec : k ∉ ([TELEMETRY_REQUEST, MAP_REQUEST, LOG_LEVEL_SELECT,
                   PERMISSION, FILE_REQUEST] : List Nat))
    (hslot : s.getSlot k = some (.latest buf))
    (hdec : env.decCmd k payload = some v) :
    ∃ r, evaluateRequest env s (kindBytes k ++ payload) = some r ∧
      r.ret = k ∧ r.replies = [serializeControlMessageType k] ∧
      r.state.getSlot k = some (.latest ⟨v, true⟩) ∧
      (CommandBuffer.mk v true).read.1 = true ∧
      (CommandBuffer.mk v true).read.2.1 = v ∧
      (CommandBuffer.mk v true).read.2.2.read.1 = false := by
  have hne : k ≠ TELEMETRY_REQUEST ∧ k ≠ MAP_REQUEST ∧
      k ≠ LOG_LEVEL_SELECT ∧ k ≠ PERMISSION ∧ k ≠ FILE_REQUEST := by
    simpa using hspec
  have hm : readU16 (kindBytes k ++ payload) = k := by
    rw [readU16_kindBytes_append]; omega
  have heval : evaluateRequest env s (kindBytes k ++ payload) =
      some ⟨k, [serializeControlMessageType k], [k],
            s.setSlot k (.latest ⟨v, true⟩)⟩ := by
    unfold evaluateRequest
    rw [if_neg (by rw [length_kindBytes_append]; omega)]
    simp only [hm, drop_two_kindBytes_append, if_neg hne.1,
      if_neg hne.2.1, if_neg hne.2.2.1, if_neg hne.2.2.2.1,
      if_neg hne.2.2.2.2, hslot, Slot.writeSerialized,
      CommandBuffer.writeSerialized, hdec]
  exact ⟨_, heval, rfl, rfl, getSlot_setSlot_same s k _, rfl, rfl, rfl⟩

/-- C2 witness: a twist command with payload `[9]` decoding under the
concrete codec. -/
theorem C2_witness :
    ∃ r, evaluateRequest envDefault (initialState true 4)
        (kindBytes TWIST_COMMAND ++ [9]) = some r ∧
      r.ret = TWIST_COMMAND ∧
      r.replies = [serializeControlMessageType TWIST_COMMAND] ∧
      r.state.getSlot TWIST_COMMAND =
        some (.latest ⟨.blob TWIST_COMMAND [9], true⟩) ∧
      (CommandBuffer.mk (CmdVal.blob TWIST_COMMAND [9]) true).read.1 = true ∧
      (CommandBuffer.mk (CmdVal.blob TWIST_COMMAND [9]) true).read.2.1 =
        CmdVal.blob TWIST_COMMAND [9] ∧
      (CommandBuffer.mk (CmdVal.blob TWIST_COMMAND [9])
        true).read.2.2.read.1 = false :=
  C2_slot_write_then_read envDefault (initialState true 4) TWIST_COMMAND
    [9] (CommandBuffer.init CmdVal) (.blob TWIST_COMMAND [9])
    (by decide) (by decide) (by decide) rfl

/-- C3 (corrected).  `CommandBuffer::write(const std::string&)` On a
parse failure executes `isnew.store(false)` (hpp:483): the prior fresh
flag is cleared, not preserved.  Concretely: a slot holding an unread
twist command, hit by an undecodable inbound twist payload, afterwards
reads as not-fresh — the claim's "a read after the failed decode still
returns true" is false. -/
theorem C3_counterexample :
    freshOf stateWithFreshTwist TWIST_COMMAND = some true ∧
    (evaluateRequest envDefault stateWithFreshTwist
        (kindBytes TWIST_COMMAND ++ [255])).map
      (fun r => freshOf r.state TWIST_COMMAND) = some (some false) := by
  decide

/-- C3 (amended): when an inbound command payload fails to decode for a
registered single-latest kind, the slot's fresh flag is cleared: the
evaluator replies `NO_DATA`, and a read after the failed decode returns
false even when a previous write had not yet been read. -/
theorem C3_decode_failure_clears_fresh (env : Env) (s : RobotState)
    (k : Nat) (payload : Bytes) (buf : CommandBuffer CmdVal)
    (hk : k < 65536)
    (hspec : k ∉ ([TELEMETRY_REQUEST, MAP_REQUEST, LOG_LEVEL_SELECT,
                   PERMISSION, FILE_REQUEST] : List Nat))
    (hslot : s.getSlot k = some (.latest buf))
    (hdec : env.decCmd k payload = none) :
    ∃ r, evaluateRequest env s (kindBytes k ++ payload) = some r ∧
      r.ret = NO_CONTROL_DATA ∧
      r.replies = [serializeControlMessageType NO_CONTROL_DATA] ∧
      r.state.getSlot k = some (.latest ⟨buf.command, false⟩) ∧
      freshOf r.state k = some false := by
  have hne : k ≠ TELEMETRY_REQUEST ∧ k ≠ MAP_REQUEST ∧
      k ≠ LOG_LEVEL_SELECT ∧ k ≠ PERMISSION ∧ k ≠ FILE_REQUEST := by
    simpa using hspec
  have hm : readU16 (kindBytes k ++ payload) = k := by
    rw [readU16_kindBytes_append]; omega
  have heval : evaluateRequest env s (kindBytes k ++ payload) =
      some ⟨NO_CONTROL_DATA,
            [serializeControlMessageType NO_CONTROL_DATA], [],
            s.setSlot k (.latest ⟨buf.command, false⟩)⟩ := by
    unfold evaluateRequest
    rw [if_neg (by rw [length_kindBytes_append]; omega)]
    simp only [hm, drop_two_kindBytes_append, if_neg hne.1,
      if_neg hne.2.1, if_neg hne.2.2.1, if_neg hne.2.2.2.1,
      if_neg hne.2.2.2.2, hslot, Slot.writeSerialized,
      CommandBuffer.writeSerialized, hdec]
  refine ⟨_, heval, rfl, rfl, getSlot_setSlot_same s k _, ?_⟩
  show freshOf (s.setSlot k (.latest ⟨buf.command, false⟩)) k = some false
  unfold freshOf
  rw [getSlot_setSlot_same]

/-- C3 witness: the amended theorem at the fresh-twist state and an
undecodable payload. -/
theorem C3_witness :
    ∃ r, evaluateRequest envDefault stateWithFreshTwist
        (kindBytes TWIST_COMMAND ++ [255]) = some r ∧
      r.ret = NO_CONTROL_DATA ∧
      r.replies = [serializeControlMessageType NO_CONTROL_DATA] ∧
      r.state.getSlot TWIST_COMMAND =
        some (.latest ⟨.blob TWIST_COMMAND [7], false⟩) ∧
      freshOf r.state TWIST_COMMAND = some false :=
  C3_decode_failure_clears_fresh envDefault stateWithFreshTwist
    TWIST_COMMAND [255] ⟨.blob TWIST_COMMAND [7], true⟩
    (by decide) (by decide) (by decide) rfl

/-- C4 (confirmed): for any telemetry kind `t` (16-bit) and any protobuf
class with serializer `enc` / parser `dec` that round-trips on `v`, a
`sendTelemetry(v, t)` followed by an inbound `TELEMETRY_REQUEST` whose
16-bit sub-kind is `t` produces exactly the framed stored blob as the
command-transport reply, and its payload (the bytes after the 2-byte
kind) decodes to `v`. -/
theorem C4_telemetry_roundtrip {T : Type} (enc : T → Bytes)
    (dec : Bytes → Option T) (v : T) (t : Nat) (env : Env)
    (s : RobotState) (ht : t < 65536) (hrt : dec (enc v) = some v)
    (htrans : s.hasTelemetryTransport = true) :
    ∃ r, evaluateRequest env (sendTelemetry enc v t false s).2.1
        (kindBytes TELEMETRY_REQUEST ++ kindBytes t) = some r ∧
      r.replies = [kindBytes t ++ enc v] ∧
      dec ((r.replies.headD []).drop 2) = some v := by
  have hsend : (sendTelemetry enc v t false s).2.1 =
      { s with telemetryStore := alistPut t (enc v) s.telemetryStore } := by
    simp [sendTelemetry, htrans]
  have hm : readU16 (kindBytes TELEMETRY_REQUEST ++ kindBytes t) =
      TELEMETRY_REQUEST := readU16_kindBytes_append TELEMETRY_REQUEST _
  have hsub : readU16 (kindBytes t) = t := by
    rw [readU16_kindBytes]; omega
  have hpeek : peekSerialized
      { s with telemetryStore := alistPut t (enc v) s.telemetryStore } t =
      kindBytes t ++ enc v := by
    unfold peekSerialized
    rw [show alistFind t (alistPut t (enc v) s.telemetryStore) =
          some (enc v) from alistFind_put_same t _ _]
  have heval : evaluateRequest env (sendTelemetry enc v t false s).2.1
      (kindBytes TELEMETRY_REQUEST ++ kindBytes t) =
      some ⟨TELEMETRY_REQUEST, [kindBytes t ++ enc v], [],
            (sendTelemetry enc v t false s).2.1⟩ := by
    unfold evaluateRequest
    rw [if_neg (by rw [length_kindBytes_append]; simp [kindBytes])]
    simp only [hm, drop_two_kindBytes_append, if_pos rfl, hsub, hsend,
      hpeek]
    rfl
  refine ⟨_, heval, rfl, ?_⟩
  show dec (([kindBytes t ++ enc v].headD []).drop 2) = some v
  rw [List.headD, drop_two_kindBytes_append]
  exact hrt

/-- C4 witness: kind `CURRENT_POSE`, a one-byte codec on `Nat`, value
42. -/
theorem C4_witness :
    ∃ r, evaluateRequest envDefault
        (sendTelemetry (fun n : Nat => [n]) 42 CURRENT_POSE false
          (initialState true 4)).2.1
        (kindBytes TELEMETRY_REQUEST ++ kindBytes CURRENT_POSE) = some r ∧
      r.replies = [kindBytes CURRENT_POSE ++ [42]] ∧
      (fun b : Bytes =>
        match b with
        | [n] => some n
        | _ => none) ((r.replies.headD []).drop 2) = some 42 :=
  C4_telemetry_roundtrip (fun n : Nat => [n])
    (fun b : Bytes =>
      match b with
      | [n] => some n
      | _ => none)
    42 CURRENT_POSE envDefault (initialState true 4)
    (by decide) rfl rfl

theorem update_nil (env : Env) (now : ℚ) (timer : Timer)
    (s : RobotState) :
    update env now [] timer s =
      (heartbeatPhase now timer s).map
        (fun x => (⟨x.1, [], x.2.1, [], []⟩, x.2.2)) := by
  cases h : heartbeatPhase now timer s with
  | none => simp [update, drainGo, h]
  | some x => simp [update, drainGo, h]

theorem heartbeatPhase_fresh (now : ℚ) (timer : Timer) (s : RobotState)
    (D L : ℚ)
    (hslot : s.getSlot HEARTBEAT = some (.latest ⟨.heartbeat D L, true⟩))
    (hpos : 0 ≤ D + s.heartbeatAllowedLatency) :
    heartbeatPhase now timer s =
      some ({ s.setSlot HEARTBEAT (.latest ⟨.heartbeat D L, false⟩) with
                connected := true },
            [], Timer.start now (D + s.heartbeatAllowedLatency)) := by
  have hexp : (Timer.start now
      (D + s.heartbeatAllowedLatency)).isExpired now =
      (false, Timer.start now (D + s.heartbeatAllowedLatency)) := by
    unfold Timer.isExpired Timer.start
    rw [if_neg]
    rintro ⟨-, hlt⟩
    rw [sub_self] at hlt
    exact absurd hlt (not_lt.mpr hpos)
  unfold heartbeatPhase
  rw [hslot]
  simp only [CommandBuffer.read, CmdVal.hbDuration]
  simp only [if_true]
  rw [show (s.setSlot HEARTBEAT
        (.latest ⟨.heartbeat D L, false⟩)).heartbeatAllowedLatency =
      s.heartbeatAllowedLatency from rfl, hexp]
  rfl

theorem heartbeatPhase_expired (now : ℚ) (timer : Timer)
    (s : RobotState) (hb : CommandBuffer CmdVal)
    (hslot : s.getSlot HEARTBEAT = some (.latest hb))
    (hstale : hb.isnew = false)
    (hrun : timer.running = true)
    (hlt : timer.duration < now - timer.startTime) :
    heartbeatPhase now timer s =
      some ({ s.setSlot HEARTBEAT (.latest ⟨hb.command, false⟩) with
                connected := false },
            (if s.hasHeartbeatCallback then [now - timer.startTime]
             else []),
            { timer with running := false }) := by
  have hexp : timer.isExpired now =
      (true, { timer with running := false }) := by
    unfold Timer.isExpired
    rw [if_pos ⟨hrun, hlt⟩]
  unfold heartbeatPhase
  rw [hslot]
  simp only [CommandBuffer.read]
  simp [hstale, hexp, Timer.getElapsedTime]
  rfl

theorem heartbeatPhase_idle (now : ℚ) (timer : Timer) (s : RobotState)
    (hb : CommandBuffer CmdVal)
    (hslot : s.getSlot HEARTBEAT = some (.latest hb))
    (hstale : hb.isnew = false)
    (hnotexp : ¬ (timer.running = true ∧
                  timer.duration < now - timer.startTime)) :
    heartbeatPhase now timer s =
      some (s.setSlot HEARTBEAT (.latest ⟨hb.command, false⟩), [],
            timer) := by
  have hexp : timer.isExpired now = (false, timer) := by
    unfold Timer.isExpired
    rw [if_neg hnotexp]
  unfold heartbeatPhase
  rw [hslot]
  simp only [CommandBuffer.read]
  simp [hstale, hexp]

/-- C5 (confirmed, heartbeat timer modelled from the spec): within one
`update` call at time `now` with no inbound traffic, (1) a fresh
`HEARTBEAT` command carrying duration `D` restarts the heartbeat timer
for `D + heartbeatAllowedLatency`, leaving `connected` true and
invoking no expiry callback; (2) with no fresh heartbeat and the
running timer past its duration, `isConnected()` becomes false and the
registered expiry callback is invoked exactly once, with the elapsed
time since timer start, after which the timer is stopped so that a
following `update` (with no new heartbeat) invokes the callback zero
times. -/
theorem C5_heartbeat_state_machine (env : Env) (now : ℚ) (timer : Timer)
    (s : RobotState) (hb : CommandBuffer CmdVal) (D L : ℚ)
    (hslot : s.getSlot HEARTBEAT = some (.latest hb)) :
    (hb = ⟨.heartbeat D L, true⟩ → 0 ≤ D + s.heartbeatAllowedLatency →
      ∃ u t', update env now [] timer s = some (u, t') ∧
        t' = Timer.start now (D + s.heartbeatAllowedLatency) ∧
        u.state.connected = true ∧ u.expiredCalls = []) ∧
    (hb.isnew = false → s.hasHeartbeatCallback = true →
     timer.running = true → timer.duration < now - timer.startTime →
      ∃ u t', update env now [] timer s = some (u, t') ∧
        isConnected u.state = false ∧
        u.expiredCalls = [Timer.getElapsedTime timer now] ∧
        t'.running = false ∧
        (∀ now₂ : ℚ, ∃ u₂ t₂,
           update env now₂ [] t' u.state = some (u₂, t₂) ∧
           u₂.expiredCalls = [])) := by
  constructor
  · intro hfresh hpos
    subst hfresh
    rw [update_nil, heartbeatPhase_fresh now timer s D L hslot hpos]
    exact ⟨_, _, rfl, rfl, rfl, rfl⟩
  · intro hstale hcb hrun hlt
    rw [update_nil,
        heartbeatPhase_expired now timer s hb hslot hstale hrun hlt]
    refine ⟨_, _, rfl, rfl, ?_, rfl, ?_⟩
    · show (if s.hasHeartbeatCallback then [now - timer.startTime]
            else []) = [Timer.getElapsedTime timer now]
      rw [if_pos hcb]
      rfl
    · intro now₂
      have hslot2 : ({ s.setSlot HEARTBEAT
            (.latest ⟨hb.command, false⟩) with
              connected := false } : RobotState).getSlot HEARTBEAT =
          some (.latest ⟨hb.command, false⟩) := by
        show alistFind HEARTBEAT
            (alistPut HEARTBEAT (.latest ⟨hb.command, false⟩)
              s.commandbuffers) = _
        exact alistFind_put_same _ _ _
      rw [update_nil,
          heartbeatPhase_idle now₂ { timer with running := false } _
            ⟨hb.command, false⟩ hslot2 rfl (by rintro ⟨h, -⟩; cases h)]
      exact ⟨_, _, rfl, rfl⟩

/-- C5 witness: (1) a fresh heartbeat with duration 2 at time 5 restarts
the timer for `2 + 0.1`; (2) a timer started at 0 for 3, checked at
time 4 with a registered callback, fires the callback once with elapsed
4 and disconnects, and a later `update` fires nothing. -/
theorem C5_witness :
    (∃ u t', update envDefault 5 [] ⟨false, 0, 0⟩ stateFreshHeartbeat =
        some (u, t') ∧
      t' = Timer.start 5 (2 + stateFreshHeartbeat.heartbeatAllowedLatency) ∧
      u.state.connected = true ∧ u.expiredCalls = []) ∧
    (∃ u t', update envDefault 4 [] ⟨true, 0, 3⟩ stateWithCallback =
        some (u, t') ∧
      isConnected u.state = false ∧
      u.expiredCalls = [Timer.getElapsedTime ⟨true, 0, 3⟩ 4] ∧
      t'.running = false ∧
      (∀ now₂ : ℚ, ∃ u₂ t₂,
         update envDefault now₂ [] t' u.state = some (u₂, t₂) ∧
         u₂.expiredCalls = [])) :=
  ⟨(C5_heartbeat_state_machine envDefault 5 ⟨false, 0, 0⟩
      stateFreshHeartbeat ⟨.heartbeat 2 0, true⟩ 2 0 rfl).1 rfl
      (by show (0 : ℚ) ≤ 2 + 1 / 10; norm_num),
   (C5_heartbeat_state_machine envDefault 4 ⟨true, 0, 3⟩
      stateWithCallback (CommandBuffer.init CmdVal) 0 0 rfl).2 rfl
      rfl rfl (by show (3 : ℚ) < 4 - 0; norm_num)⟩

theorem drainGo_cons (env : Env) (msg : Bytes) (rest : List Bytes)
    (s : RobotState) :
    drainGo env (msg :: rest) s =
      match evaluateRequest env s msg with
      | none => none
      | some r =>
          if r.ret = NO_CONTROL_DATA then
            some (r.state, r.replies, r.callbackNotified, rest)
          else
            match drainGo env rest { r.state with connected := true } with
            | none => none
            | some (s', reps, cbs, rem) =>
                some (s', r.replies ++ reps, r.callbackNotified ++ cbs,
                      rem) := rfl

/-- C6 (corrected).  The drain loop is
`while (receiveRequest() != NO_CONTROL_DATA) {connected.store(true);}`,
and `evaluateRequest` returns `NO_CONTROL_DATA` not only when the
transport has no data but also when a registered kind's payload fails
to decode (cpp:196): such a message terminates the drain with the rest
of the queue unread and without `connected` being stored.  Concretely:
two queued twist commands, the first undecodable — after `update` the
second is still queued and `connected` is still false, refuting "drains
until receive reports no data" and "sets connected to true whenever any
inbound message arrives". -/
theorem C6_counterexample :
    (update envDefault 0
        [kindBytes TWIST_COMMAND ++ [255], kindBytes TWIST_COMMAND ++ [9]]
        ⟨false, 0, 0⟩ (initialState true 4)).map
      (fun x => (x.1.remaining, x.1.state.connected)) =
    some ([kindBytes TWIST_COMMAND ++ [9]], false) := rfl

/-- C6 (amended): one `update` call drains the command transport until
`receive` reports no data **or** a processed message's evaluation
returns `NO_DATA` (a registered kind's payload failing to decode, or an
inbound kind-0 frame); `connected` is set after each message whose
evaluation returns non-`NO_DATA` (whatever its kind, including unknown
kinds and file/telemetry requests), while a message evaluating to
`NO_DATA` ends the drain leaving `connected` unset for it and the rest
of the queue unconsumed. -/
theorem C6_drain_loop (env : Env) (s : RobotState) (msg : Bytes)
    (rest : List Bytes) (r : EvalResult)
    (h : evaluateRequest env s msg = some r) :
    (r.ret = NO_CONTROL_DATA →
      drainGo env (msg :: rest) s =
        some (r.state, r.replies, r.callbackNotified, rest) ∧
      r.state.connected = s.connected) ∧
    (r.ret ≠ NO_CONTROL_DATA →
      drainGo env (msg :: rest) s =
        (drainGo env rest { r.state with connected := true }).map
          (fun x => (x.1, r.replies ++ x.2.1,
                     r.callbackNotified ++ x.2.2.1, x.2.2.2))) := by
  constructor
  · intro h0
    constructor
    · rw [drainGo_cons]
      simp only [h]
      rw [if_pos h0]
    · exact evaluateRequest_connected env s msg r h
  · intro h0
    rw [drainGo_cons]
    simp only [h]
    rw [if_neg h0]
    cases hd : drainGo env rest { r.state with connected := true } with
    | none => simp only [hd]; rfl
    | some x => obtain ⟨a, b, c, d⟩ := x; simp only [hd]; rfl

/-- C6 witness: the amended theorem at an undecodable twist command
(drain stops, queue not drained, connected unchanged) and at a
decodable one (drain continues with connected set). -/
theorem C6_witness :
    (drainGo envDefault
        [kindBytes TWIST_COMMAND ++ [255], kindBytes TWIST_COMMAND ++ [9]]
        (initialState true 4) =
      some (evalFailTwist.state, evalFailTwist.replies,
            evalFailTwist.callbackNotified,
            [kindBytes TWIST_COMMAND ++ [9]]) ∧
     evalFailTwist.state.connected = (initialState true 4).connected) ∧
    drainGo envDefault [kindBytes TWIST_COMMAND ++ [9]]
        (initialState true 4) =
      (drainGo envDefault [] { evalOkTwist.state with connected := true }).map
        (fun x => (x.1, evalOkTwist.replies ++ x.2.1,
                   evalOkTwist.callbackNotified ++ x.2.2.1, x.2.2.2)) :=
  ⟨(C6_drain_loop envDefault (initialState true 4)
      (kindBytes TWIST_COMMAND ++ [255])
      [kindBytes TWIST_COMMAND ++ [9]] evalFailTwist (by rfl)).1 rfl,
   (C6_drain_loop envDefault (initialState true 4)
      (kindBytes TWIST_COMMAND ++ [9]) [] evalOkTwist (by rfl)).2
      (by decide)⟩

/-- C7 (code_bug, flagged by the spec itself in §9.2): `requestPermission`
returns `promise.get_future().share()` inside a `try` whose `catch`
block has no `return` — when the same request-uid is used twice, the
second `get_future()` throws `future_error`, the catch swallows it, and
control falls off the end of the non-void function: no shareable future
is returned (undefined behavior), against the claim's "always returns a
shareable future".  The theorem evaluates the embedded code at the
failing input: the first call with uid `"u1"` returns a future, the
second call with the same uid returns nothing. -/
theorem C7_requestPermission_code_bug :
    (requestPermission (fun _ => [0]) "u1" (initialState true 4)).isSome =
      true ∧
    ((requestPermission (fun _ => [0]) "u1" (initialState true 4)).bind
      (fun x => requestPermission (fun _ => [0]) "u1" x.1)) = none :=
  ⟨rfl, rfl⟩

/-- C8 (amended): on an inbound `FILE_REQUEST` whose identifier matches
no file definition, the reply sent on the command transport is the
serialized Folder — sent as-is, with no 2-byte kind tag prepended —
with no file entries and identifier
`"file/folder :" ++ requested ++ " undefined"`, and the state is
unchanged. -/
theorem C8_file_request_miss (env : Env) (s : RobotState)
    (payload : Bytes) (identifier : String) (c : Bool)
    (hdec : env.decFileRequest payload = some (identifier, c))
    (hmiss : ∀ fd ∈ s.files, fd.identifier ≠ identifier) :
    ∃ r, evaluateRequest env s (kindBytes FILE_REQUEST ++ payload) =
        some r ∧
      r.ret = FILE_REQUEST ∧
      r.replies = [env.encFolder
        ⟨"file/folder :" ++ identifier ++ " undefined", [], false⟩] ∧
      r.state = s := by
  have hm : readU16 (kindBytes FILE_REQUEST ++ payload) = FILE_REQUEST := by
    rw [readU16_kindBytes_append]
    decide
  have hidx : findFileIndex identifier s.files = none :=
    findFileIndex_none identifier s.files hmiss
  have heval : evaluateRequest env s (kindBytes FILE_REQUEST ++ payload) =
      some ⟨FILE_REQUEST,
            [env.encFolder
              ⟨"file/folder :" ++ identifier ++ " undefined", [], false⟩],
            [], s⟩ := by
    unfold evaluateRequest
    rw [if_neg (by rw [length_kindBytes_append]; omega)]
    simp only [hm, drop_two_kindBytes_append, hdec,
      if_neg (show FILE_REQUEST ≠ TELEMETRY_REQUEST by decide),
      if_neg (show FILE_REQUEST ≠ MAP_REQUEST by decide),
      if_neg (show FILE_REQUEST ≠ LOG_LEVEL_SELECT by decide),
      if_neg (show FILE_REQUEST ≠ PERMISSION by decide), if_pos rfl,
      Option.getD, hidx]
    rfl
  exact ⟨_, heval, rfl, rfl, rfl⟩

/-- C8 witness: scenario S4 — no file definitions, inbound
`FILE_REQUEST(identifier="nope", compressed=true)`. -/
theorem C8_witness :
    ∃ r, evaluateRequest envDefault (initialState true 4)
        (kindBytes FILE_REQUEST ++ [110]) = some r ∧
      r.ret = FILE_REQUEST ∧
      r.replies = [envDefault.encFolder
        ⟨"file/folder :" ++ "nope" ++ " undefined", [], false⟩] ∧
      r.state = initialState true 4 :=
  C8_file_request_miss envDefault (initialState true 4) [110] "nope"
    true rfl (by simp [initialState])

/-- C8 (corrected).  The claim calls the reply a *framed* Folder, but
the source sends the bare `Folder::SerializeToString` output with no
2-byte kind prefix (`folder.SerializeToString(&buf);
commandTransport->send(buf);`, cpp:186-187) — unlike e.g. the
`TELEMETRY_REQUEST` reply, which is stored tagged.  Under the concrete
codec, the emitted reply equals the bare serialization and hence cannot
equal `kind ++ serialization` for any kind, because a frame is two
bytes longer. -/
theorem C8_counterexample :
    ¬ ∃ k : Nat,
      (evaluateRequest envDefault (initialState true 4)
          (kindBytes FILE_REQUEST ++ [110])).map EvalResult.replies =
        some [kindBytes k ++ envDefault.encFolder folderMiss] := by
  rintro ⟨k, h⟩
  have he : (evaluateRequest envDefault (initialState true 4)
      (kindBytes FILE_REQUEST ++ [110])).map EvalResult.replies =
      some [envDefault.encFolder folderMiss] := rfl
  rw [he] at h
  have h2 : envDefault.encFolder folderMiss =
      kindBytes k ++ envDefault.encFolder folderMiss := by
    simpa using h
  have h3 := congrArg List.length h2
  rw [List.length_append] at h3
  have h4 : (kindBytes k).length = 2 := rfl
  rw [h4] at h3
  omega

/-- C9 (confirmed): with a telemetry transport configured,
`setLogMessage(lvl, msg)` sends the framed `LOG_MESSAGE` telemetry blob
iff `lvl ≤ logLevel ∨ lvl ≥ CUSTOM`; otherwise nothing is sent and the
call returns `-1`. -/
theorem C9_log_message_gating (enc : Nat × String → Bytes) (lvl : Nat)
    (message : String) (s : RobotState)
    (htrans : s.hasTelemetryTransport = true) :
    ((setLogMessage enc lvl message s).2.2 =
      if lvl ≤ s.logLevel ∨ CUSTOM ≤ lvl then
        [kindBytes LOG_MESSAGE ++ enc (lvl, message)]
      else []) ∧
    (¬ (lvl ≤ s.logLevel ∨ CUSTOM ≤ lvl) →
      (setLogMessage enc lvl message s).1 = -1 ∧
      (setLogMessage enc lvl message s).2.2 = []) := by
  by_cases h : lvl ≤ s.logLevel ∨ CUSTOM ≤ lvl
  · constructor
    · rw [if_pos h]
      unfold setLogMessage sendTelemetry
      rw [if_pos h, if_pos htrans]
      rfl
    · intro hn
      exact absurd h hn
  · constructor
    · rw [if_neg h]
      unfold setLogMessage
      rw [if_neg h]
    · intro _
      unfold setLogMessage
      rw [if_neg h]
      exact ⟨rfl, rfl⟩

/-- C9 witness: on the freshly constructed engine (`logLevel =
CUSTOM - 1 = 19`), `DEBUG(5)` is emitted; on a `LOG_LEVEL_SELECT`-ed
level 0, `DEBUG(5)` is suppressed with return `-1` while a custom
level 25 is emitted. -/
theorem C9_witness :
    ((setLogMessage (fun p => [p.1]) 5 "m" (initialState true 4)).2.2 =
      if 5 ≤ (initialState true 4).logLevel ∨ CUSTOM ≤ 5 then
        [kindBytes LOG_MESSAGE ++ [5]]
      else []) ∧
    ((setLogMessage (fun p => [p.1]) 5 "m"
        { initialState true 4 with logLevel := 0 }).1 = -1 ∧
     (setLogMessage (fun p => [p.1]) 5 "m"
        { initialState true 4 with logLevel := 0 }).2.2 = []) ∧
    ((setLogMessage (fun p => [p.1]) 25 "m"
        { initialState true 4 with logLevel := 0 }).2.2 =
      if 25 ≤ ({ initialState true 4 with logLevel := 0 } :
          RobotState).logLevel ∨ CUSTOM ≤ 25 then
        [kindBytes LOG_MESSAGE ++ [25]]
      else []) :=
  ⟨(C9_log_message_gating (fun p => [p.1]) 5 "m"
      (initialState true 4) rfl).1,
   (C9_log_message_gating (fun p => [p.1]) 5 "m"
      { initialState true 4 with logLevel := 0 } rfl).2 (by decide),
   (C9_log_message_gating (fun p => [p.1]) 25 "m"
      { initialState true 4 with logLevel := 0 } rfl).1⟩

/-- C10 (confirmed): the public command getters wrap
`CommandBuffer::read(out)`, which unconditionally copies the stored
message into the out-parameter — so a read on a slot returns the stored
value whatever the fresh flag; a second read with no intervening write
returns false yet still delivers the same stored value; and on a
freshly constructed engine (no successful write ever) the delivered
value is the default-constructed message. -/
theorem C10_read_always_overwrites (s : RobotState) (k : Nat)
    (buf : CommandBuffer CmdVal)
    (h : s.getSlot k = some (.latest buf)) :
    readCommandSlot k s =
      some (buf.isnew, buf.command,
            s.setSlot k (.latest ⟨buf.command, false⟩)) ∧
    readCommandSlot k (s.setSlot k (.latest ⟨buf.command, false⟩)) =
      some (false, buf.command,
            (s.setSlot k (.latest ⟨buf.command, false⟩)).setSlot k
              (.latest ⟨buf.command, false⟩)) ∧
    (∀ (htel : Bool) (bsize : Nat),
       getTwistCommand (initialState htel bsize) =
         some (false, default,
               (initialState htel bsize).setSlot TWIST_COMMAND
                 (.latest ⟨default, false⟩))) := by
  refine ⟨?_, ?_, ?_⟩
  · unfold readCommandSlot
    rw [h]
    rfl
  · unfold readCommandSlot
    rw [getSlot_setSlot_same]
    rfl
  · intro htel bsize
    rfl

/-- C10 witness: the twist slot of a fresh engine: first and second
reads both deliver the default-constructed message, with flags false. -/
theorem C10_witness :
    readCommandSlot TWIST_COMMAND (initialState true 3) =
      some ((CommandBuffer.init CmdVal).isnew,
            (CommandBuffer.init CmdVal).command,
            (initialState true 3).setSlot TWIST_COMMAND
              (.latest ⟨(CommandBuffer.init CmdVal).command, false⟩)) ∧
    readCommandSlot TWIST_COMMAND
        ((initialState true 3).setSlot TWIST_COMMAND
          (.latest ⟨(CommandBuffer.init CmdVal).command, false⟩)) =
      some (false, (CommandBuffer.init CmdVal).command,
            ((initialState true 3).setSlot TWIST_COMMAND
              (.latest ⟨(CommandBuffer.init CmdVal).command,
                        false⟩)).setSlot TWIST_COMMAND
              (.latest ⟨(CommandBuffer.init CmdVal).command, false⟩)) ∧
    (∀ (htel : Bool) (bsize : Nat),
       getTwistCommand (initialState htel bsize) =
         some (false, default,
               (initialState htel bsize).setSlot TWIST_COMMAND
                 (.latest ⟨default, false⟩))) :=
  C10_read_always_overwrites (initialState true 3) TWIST_COMMAND
    (CommandBuffer.init CmdVal) rfl

end RobotRemoteControl
